import Mathlib

/-!
Shallow embedding of the authentication subsystem of the jobtrackr backend:
the auth controller (`src/controllers/authController.js`), the user schema
(`src/models/User.js`), the message constants (`src/constants/messages.js`),
the `protect` bearer-token middleware (`src/middleware/authMiddleware.js`)
and the `sendEmail` utility (`src/utils/sendEmail.js`).

External collaborators (bcrypt hashing/compare, sha256 digest, the nodemailer
transport) are passed in as function parameters; the `jsonwebtoken` library is
modelled by a small symbolic token type.  Timestamps are `Nat` milliseconds
(`Date.now()`).  The Mongoose collection is a `List UserRec`; `save` replaces
the record with the matching id.
-/

namespace JobTrackr

/-! ### Message constants, from `src/constants/messages.js` -/

namespace MESSAGES

def EMAIL_ALREADY_IN_USE : String := "Email already in use"

def EMAIL_NOT_VERIFIED : String :=
  "Email not verified. Please check your email and verify your account."

def EMAIL_ALREADY_VERIFIED : String := "Email already verified"

def INVALID_CREDENTIALS : String := "Invalid email or password"

def INVALID_OR_EXPIRED_TOKEN : String := "Invalid or expired token"

def USER_NOT_FOUND : String := "User not found"

def INVALID_CURRENT_PASSWORD : String := "Invalid current password"

/-- messages.js defines no `ACCOUNT_LOCKED` key, so the controller's
`MESSAGES.ERROR.ACCOUNT_LOCKED` reads as JavaScript `undefined`. -/
def ACCOUNT_LOCKED : Option String := none

def USER_REGISTERED : String := "User registered successfully"

def EMAIL_VERIFIED : String := "Email verified successfully. You can now log in."

def PASSWORD_RESET_SUCCESS : String := "Password reset successful. You can now log in."

def USER_UPDATED : String := "User updated successfully"

def LOGIN_SUCCESS : String := "Login successful"

end MESSAGES

/-- JavaScript template-literal interpolation of a possibly-undefined value:
`undefined` prints as the string "undefined". -/
def jsShow (v : Option String) : String := v.getD "undefined"

/-! ### Error classes, from `src/utils/errorHandler.js` / `src/utils/errors` -/

/-- Operational `AppError` subclasses thrown by the auth controller, each
carrying its message.  The constructor records the class
(ConflictError 409, NotFoundError 404, ValidationError 400,
UnauthorizedError 401). -/
inductive AuthError where
  | conflict (msg : String)
  | notFound (msg : String)
  | validation (msg : String)
  | unauthorized (msg : String)
deriving Repr, DecidableEq

/-- HTTP status code attached to each `AppError` subclass constructor. -/
def AuthError.statusCode : AuthError → Nat
  | .conflict _ => 409
  | .notFound _ => 404
  | .validation _ => 400
  | .unauthorized _ => 401

/-! ### The user schema, from `src/models/User.js` -/

/-- One document of the `User` collection.  `id` stands for Mongo's `_id`.
Field defaults mirror the schema (`isVerified` defaults to false,
`failedLoginAttempts` defaults to 0); optional schema fields are `Option`. -/
structure UserRec where
  id : Nat
  firstName : String
  lastName : Option String := none
  email : String
  password : String
  isVerified : Bool := false
  resetPasswordToken : Option String := none
  resetPasswordExpires : Option Nat := none
  failedLoginAttempts : Nat := 0
  accountLockedUntil : Option Nat := none
  refreshToken : Option String := none
  refreshTokenExpires : Option Nat := none
deriving Repr, DecidableEq

/-! ### The Mongoose collection operations used by the controller -/

/-- `User.findOne({ email })`. -/
def findOneByEmail (db : List UserRec) (email : String) : Option UserRec :=
  db.find? (fun u => u.email == email)

/-- `User.findById(id)`. -/
def findById (db : List UserRec) (id : Nat) : Option UserRec :=
  db.find? (fun u => u.id == id)

/-- `User.findOne({ resetPasswordToken: digest, resetPasswordExpires: { $gt: now } })`. -/
def findOneByResetToken (db : List UserRec) (digest : String) (now : Nat) :
    Option UserRec :=
  db.find? (fun u =>
    u.resetPasswordToken == some digest &&
      match u.resetPasswordExpires with
      | some e => decide (now < e)
      | none => false)

/-- `user.save()`: write back the document with this `_id`. -/
def saveUser (db : List UserRec) (u : UserRec) : List UserRec :=
  db.map (fun v => if v.id == u.id then u else v)

/-- Number of documents holding a given email. -/
def emailCount (db : List UserRec) (email : String) : Nat :=
  (db.filter (fun u => u.email == email)).length

/-! ### The `jsonwebtoken` library, modelled symbolically -/

/-- Claim sets the controller signs: `{ email }` for verification tokens,
`{ id }` for session tokens. -/
inductive Claim where
  | emailClaim (email : String)
  | idClaim (id : Nat)
deriving Repr, DecidableEq

/-- A structurally well-formed signed token: its claim, the key it was signed
with, and the absolute expiry instant (sign time + `expiresIn`). -/
structure SignedToken where
  claim : Claim
  secret : String
  expiresAt : Nat
deriving Repr, DecidableEq

/-- `jwt.sign(claim, secret, { expiresIn: '1h' })` at instant `now`. -/
def jwtSign (claim : Claim) (secret : String) (now : Nat) : SignedToken :=
  { claim := claim, secret := secret, expiresAt := now + 3600000 }

/-- An inbound token string: either garbage that does not parse as a JWT, or a
structurally valid token. -/
inductive TokenInput where
  | malformed (raw : String)
  | wellFormed (t : SignedToken)
deriving Repr, DecidableEq

/-- Errors `jwt.verify` can throw for the token shapes modelled here:
`TokenExpiredError`, or `JsonWebTokenError` (malformed / wrong signature). -/
inductive JwtError where
  | tokenExpired
  | jsonWebTokenErr
deriving Repr, DecidableEq

/-- `jwt.verify(token, secret)` at instant `now`. -/
def jwtVerify (secret : String) (now : Nat) : TokenInput → Except JwtError Claim
  | .malformed _ => .error .jsonWebTokenErr
  | .wellFormed t =>
      if t.secret ≠ secret then .error .jsonWebTokenErr
      else if t.expiresAt ≤ now then .error .tokenExpired
      else .ok t.claim

/-! ### `loginUser`, from `src/controllers/authController.js` lines 107-174 -/

/-- `Math.ceil((lockedUntil - now) / 60000)` for `now < lockedUntil`. -/
def minutesLeft (lockedUntil now : Nat) : Nat :=
  (lockedUntil - now + 59999) / 60000

/-- Message of the locked-account error thrown while the lock is active
(line 123: a template literal interpolating the undefined
`MESSAGES.ERROR.ACCOUNT_LOCKED` and the remaining minutes). -/
def accountLockedRemainingMsg (minutes : Nat) : String :=
  jsShow MESSAGES.ACCOUNT_LOCKED ++ " Account will be unlocked in " ++
    toString minutes ++ " minute(s)."

/-- Message of the locked-account error thrown when the 5th failure sets the
lock (line 144: a template literal of just the undefined constant). -/
def accountLockedMsg : String := jsShow MESSAGES.ACCOUNT_LOCKED

/-- Successful login response body: the session token plus the minimal public
profile. -/
structure LoginOk where
  token : SignedToken
  firstName : String
  lastName : Option String
  email : String
  message : String
deriving Repr, DecidableEq

/-- Lines 134-173 of `loginUser`: the password comparison and everything after
it, entered with the (possibly lock-reset) user document and database. -/
def loginPasswordStep (compare : String → String → Bool) (secret : String)
    (now : Nat) (db : List UserRec) (user : UserRec) (password : String) :
    List UserRec × Except AuthError LoginOk :=
  if compare password user.password = false then
    let user := { user with failedLoginAttempts := user.failedLoginAttempts + 1 }
    if 5 ≤ user.failedLoginAttempts then
      let user := { user with accountLockedUntil := some (now + 30 * 60 * 1000) }
      (saveUser db user, .error (.unauthorized accountLockedMsg))
    else
      (saveUser db user, .error (.unauthorized MESSAGES.INVALID_CREDENTIALS))
  else
    let user := { user with failedLoginAttempts := 0, accountLockedUntil := none }
    (saveUser db user,
      .ok { token := jwtSign (.idClaim user.id) secret now,
            firstName := user.firstName, lastName := user.lastName,
            email := user.email, message := MESSAGES.LOGIN_SUCCESS })

/-- `loginUser`: `compare` is `bcrypt.compare`, `secret` is
`process.env.JWT_SECRET`, `now` is `Date.now()`.  Returns the database after
any `user.save()` calls together with the thrown error or the 200 response. -/
def loginUser (compare : String → String → Bool) (secret : String) (now : Nat)
    (db : List UserRec) (email password : String) :
    List UserRec × Except AuthError LoginOk :=
  match findOneByEmail db email with
  | none => (db, .error (.unauthorized MESSAGES.INVALID_CREDENTIALS))
  | some user =>
    if user.isVerified = false then
      (db, .error (.unauthorized MESSAGES.EMAIL_NOT_VERIFIED))
    else
      match user.accountLockedUntil with
      | some lockedUntil =>
        if now < lockedUntil then
          (db, .error (.unauthorized
            (accountLockedRemainingMsg (minutesLeft lockedUntil now))))
        else
          let user := { user with failedLoginAttempts := 0,
                                  accountLockedUntil := none }
          loginPasswordStep compare secret now (saveUser db user) user password
      | none => loginPasswordStep compare secret now db user password

/-! ### `sendEmail`, from `src/utils/sendEmail.js` -/

/-- Argument object of `sendEmail`. -/
structure EmailMsg where
  email : String
  subject : String
  message : String
deriving Repr, DecidableEq

/-- Return value of `sendEmail`: `{ success: true, messageId }` or
`{ success: false, error }`.  It never throws: the body is one big
try/catch. -/
inductive SendResult where
  | success (messageId : String)
  | failure (error : String)
deriving Repr, DecidableEq

/-- `sendEmail(options)`: `transport` models `transporter.sendMail`, returning
a message id or raising an error; the catch turns the error into a failure
value. -/
def sendEmail (transport : EmailMsg → Except String String)
    (options : EmailMsg) : SendResult :=
  match transport options with
  | .ok info => .success info
  | .error e => .failure e

/-- Decidable equality for `Except`, so concrete controller outcomes can be
checked by `decide`. -/
instance instDecEqExcept {ε α : Type} [DecidableEq ε] [DecidableEq α] :
    DecidableEq (Except ε α)
  | .ok x, .ok y =>
      if h : x = y then .isTrue (h ▸ rfl)
      else .isFalse (fun hc => h (Except.ok.inj hc))
  | .error x, .error y =>
      if h : x = y then .isTrue (h ▸ rfl)
      else .isFalse (fun hc => h (Except.error.inj hc))
  | .ok _, .error _ => .isFalse (fun hc => Except.noConfusion hc)
  | .error _, .ok _ => .isFalse (fun hc => Except.noConfusion hc)

/-! ### `registerUser`, from `src/controllers/authController.js` lines 16-53 -/

/-- HTML body of the verification message (the link embeds the token; the raw
URL is irrelevant to the claims, so the body records the token itself). -/
def verificationEmailBody (frontendUrl : String) (token : SignedToken) : String :=
  "<p>Click <a href=\"" ++ frontendUrl ++ "/auth/verify-email?token=" ++
    toString (repr token) ++ "\">here</a> to verify your account</p>"

/-- Outcome of a `registerUser` call: the database after any insert, the
result of the `sendEmail` call when one was made, and the thrown error or the
201 response `(status, message)`. -/
structure RegisterResult where
  db : List UserRec
  sent : Option SendResult
  response : Except AuthError (Nat × String)
deriving Repr, DecidableEq

/-- `registerUser`: `hash` models `bcrypt.hash` with its fresh salt already
applied, `freshId` is the `_id` Mongo assigns to the new document. -/
def registerUser (hash : String → String) (secret frontendUrl : String)
    (transport : EmailMsg → Except String String) (now : Nat)
    (db : List UserRec) (freshId : Nat)
    (firstName : String) (lastName : Option String) (email password : String) :
    RegisterResult :=
  match findOneByEmail db email with
  | some _ =>
      { db := db, sent := none,
        response := .error (.conflict MESSAGES.EMAIL_ALREADY_IN_USE) }
  | none =>
      let hashedPassword := hash password
      let newUser : UserRec :=
        { id := freshId, firstName := firstName, lastName := lastName,
          email := email, password := hashedPassword }
      let token := jwtSign (.emailClaim newUser.email) secret now
      let db := db ++ [newUser]
      let sent := sendEmail transport
        { email := newUser.email, subject := "Verify your email",
          message := verificationEmailBody frontendUrl token }
      { db := db, sent := some sent,
        response := .ok (201, MESSAGES.USER_REGISTERED) }

/-! ### `verifyEmail`, from `src/controllers/authController.js` lines 84-105 -/

/-- An error escaping the controller: an `AppError` it threw itself, or a
`jsonwebtoken` error propagating out of `jwt.verify` through `catchAsync`. -/
inductive CtrlError where
  | app (e : AuthError)
  | jwt (e : JwtError)
deriving Repr, DecidableEq

/-- `User.findOne({ email: decoded.email })`.  A session token's payload has
no `email` property; Mongoose strips `undefined` filter values, making the
query `findOne({})`, which returns the first document. -/
def findOneByDecodedEmail (db : List UserRec) : Claim → Option UserRec
  | .emailClaim e => findOneByEmail db e
  | .idClaim _ => db.head?

/-- `verifyEmail` on the query-string token. -/
def verifyEmail (secret : String) (now : Nat) (db : List UserRec)
    (token : TokenInput) : List UserRec × Except CtrlError String :=
  match jwtVerify secret now token with
  | .error e => (db, .error (.jwt e))
  | .ok decoded =>
    match findOneByDecodedEmail db decoded with
    | none =>
        (db, .error (.app (.unauthorized MESSAGES.INVALID_OR_EXPIRED_TOKEN)))
    | some user =>
      if user.isVerified then
        (db, .error (.app (.validation MESSAGES.EMAIL_ALREADY_VERIFIED)))
      else
        (saveUser db { user with isVerified := true },
          .ok MESSAGES.EMAIL_VERIFIED)

/-! ### `resetPassword`, from `src/controllers/authController.js` lines 242-270 -/

/-- `resetPassword`: `sha256` models `crypto.createHash('sha256')...digest`,
`hash` models `bcrypt.hash`.  Returns the database and the thrown error or
the success message. -/
def resetPassword (sha256 hash : String → String) (now : Nat)
    (db : List UserRec) (token newPassword : String) :
    List UserRec × Except AuthError String :=
  let hashedToken := sha256 token
  match findOneByResetToken db hashedToken now with
  | none => (db, .error (.unauthorized MESSAGES.INVALID_OR_EXPIRED_TOKEN))
  | some user =>
      let user := { user with password := hash newPassword,
                              resetPasswordToken := none,
                              resetPasswordExpires := none }
      (saveUser db user, .ok MESSAGES.PASSWORD_RESET_SUCCESS)

/-! ### `updateUser`, from `src/controllers/authController.js` lines 176-208 -/

/-- Request body of the update endpoint: each field is present or absent
(`req.body.x !== undefined`). -/
structure UpdateBody where
  firstName : Option String := none
  lastName : Option String := none
  email : Option String := none
  password : Option String := none
deriving Repr, DecidableEq

/-- `Object.keys(updates).length === 0`. -/
def UpdateBody.isEmpty (b : UpdateBody) : Bool :=
  b.firstName.isNone && b.lastName.isNone && b.email.isNone && b.password.isNone

/-- The field writes `findByIdAndUpdate` performs for the collected
`updates` object; a provided password is stored hashed. -/
def applyUpdates (hash : String → String) (b : UpdateBody) (u : UserRec) :
    UserRec :=
  { u with
    firstName := b.firstName.getD u.firstName,
    lastName := match b.lastName with
                | some l => some l
                | none => u.lastName,
    email := b.email.getD u.email,
    password := match b.password with
                | some p => hash p
                | none => u.password }

/-- `updateUser` for the authenticated `userId`.  The 200 response carries
the message and the returned user document (`null` when the empty-update
branch finds no user). -/
def updateUser (hash : String → String) (db : List UserRec) (userId : Nat)
    (b : UpdateBody) : List UserRec × Except AuthError (String × Option UserRec) :=
  if b.isEmpty then
    (db, .ok (MESSAGES.USER_UPDATED, findById db userId))
  else
    match findById db userId with
    | none => (db, .error (.notFound MESSAGES.USER_NOT_FOUND))
    | some user =>
        let updatedUser := applyUpdates hash b user
        (saveUser db updatedUser, .ok (MESSAGES.USER_UPDATED, some updatedUser))

/-! ### The `protect` middleware, from `src/middleware/authMiddleware.js` -/

/-- The request's `Authorization` header: absent, present but not starting
with "Bearer" (the split then leaves `token` undefined), or a bearer value
whose token part is `tok`. -/
inductive AuthzHeader where
  | missing
  | notBearer (raw : String)
  | bearer (tok : TokenInput)
deriving Repr, DecidableEq

/-- What `protect` does with the request: attach the decoded payload as
`req.user` and call `next()`, or answer 401 with a message, a `code`, and
(for expired tokens) the `expiredAt` instant. -/
inductive ProtectOutcome where
  | authorized (claim : Claim)
  | rejected (status : Nat) (message : String) (code : String)
      (expiredAt : Option Nat)
deriving Repr, DecidableEq

/-- Expiry instant reported in the `TokenExpiredError` response. -/
def expiryOf : TokenInput → Option Nat
  | .malformed _ => none
  | .wellFormed t => some t.expiresAt

/-- The `protect` middleware. -/
def protect (secret : String) (now : Nat) : AuthzHeader → ProtectOutcome
  | .missing =>
      .rejected 401 "Not authorized, no token" "NO_TOKEN" none
  | .notBearer _ =>
      .rejected 401 "Not authorized, no token" "NO_TOKEN" none
  | .bearer tok =>
      match jwtVerify secret now tok with
      | .ok decoded => .authorized decoded
      | .error .tokenExpired =>
          .rejected 401 "Token expired" "TOKEN_EXPIRED" (expiryOf tok)
      | .error .jsonWebTokenErr =>
          .rejected 401 "Invalid token" "INVALID_TOKEN" none

/-! ### Helper lemmas -/

/-- Writing back the same document twice is the same as writing it once. -/
theorem saveUser_idem (db : List UserRec) (u : UserRec) :
    saveUser (saveUser db u) u = saveUser db u := by
  unfold saveUser
  rw [List.map_map]
  apply List.map_congr_left
  intro a _
  by_cases h : a.id = u.id <;> simp [h]

/-! ### Witness fixtures: a concrete hasher, comparer and database -/

/-- Stand-in for `bcrypt.hash` in concrete evaluations. -/
def hashW : String → String := fun p => "h:" ++ p

/-- Stand-in for `bcrypt.compare` in concrete evaluations, consistent with
`hashW`. -/
def cmpW : String → String → Bool := fun p h => ("h:" ++ p) == h

/-- A verified account currently locked until instant 2000000. -/
def janeLocked : UserRec :=
  { id := 1, firstName := "Jane", lastName := some "Doe",
    email := "jane@x.com", password := "h:secret1", isVerified := true,
    failedLoginAttempts := 5, accountLockedUntil := some 2000000 }

/-- A verified account with no lock and three failed attempts. -/
def janeActive : UserRec :=
  { id := 1, firstName := "Jane", lastName := some "Doe",
    email := "jane@x.com", password := "h:secret1", isVerified := true,
    failedLoginAttempts := 3, accountLockedUntil := none }

/-- A verified account whose lock instant 1000 has already passed. -/
def janeExpiredLock : UserRec :=
  { id := 1, firstName := "Jane", lastName := some "Doe",
    email := "jane@x.com", password := "h:secret1", isVerified := true,
    failedLoginAttempts := 5, accountLockedUntil := some 1000 }

/-! ### Claims -/

/-- C1: while `lockedUntil` is set and in the future, login returns the
Unauthorized locked-account error for every password and every comparer (the
stored hash is never compared), and the database — in particular
`failedLoginAttempts` and `accountLockedUntil` — is not mutated, so a success
is impossible while locked. -/
theorem C1_locked_login_refused_no_mutation
    (compare : String → String → Bool) (secret : String) (now : Nat)
    (db : List UserRec) (email password : String) (user : UserRec)
    (lockedUntil : Nat)
    (hfind : findOneByEmail db email = some user)
    (hver : user.isVerified = true)
    (hlock : user.accountLockedUntil = some lockedUntil)
    (hfut : now < lockedUntil) :
    loginUser compare secret now db email password =
      (db, .error (.unauthorized
        (accountLockedRemainingMsg (minutesLeft lockedUntil now)))) := by
  simp [loginUser, hfind, hver, hlock, hfut]

/-- C1 witness: concrete locked account, correct password, login still
refused and the database unchanged. -/
theorem C1_locked_login_refused_no_mutation_witness :
    findOneByEmail [janeLocked] "jane@x.com" = some janeLocked ∧
    janeLocked.isVerified = true ∧
    janeLocked.accountLockedUntil = some 2000000 ∧
    (100000 : Nat) < 2000000 ∧
    loginUser cmpW "s" 100000 [janeLocked] "jane@x.com" "secret1" =
      ([janeLocked], .error (.unauthorized
        (accountLockedRemainingMsg (minutesLeft 2000000 100000)))) :=
  ⟨by decide, by decide, by decide, by decide,
    C1_locked_login_refused_no_mutation cmpW "s" 100000 [janeLocked]
      "jane@x.com" "secret1" janeLocked 2000000 (by decide) (by decide)
      (by decide) (by decide)⟩

/-- C2: on a verified, unlocked account, a wrong password increments
`failedLoginAttempts`; when the new count reaches 5 the account is locked for
30 minutes, persisted, and the locked-account error is returned; below 5 the
incremented counter is persisted and the generic invalid-credentials error is
returned. -/
theorem C2_wrong_password_counts_and_locks
    (compare : String → String → Bool) (secret : String) (now : Nat)
    (db : List UserRec) (email password : String) (user : UserRec)
    (hfind : findOneByEmail db email = some user)
    (hver : user.isVerified = true)
    (hlock : user.accountLockedUntil = none)
    (hwrong : compare password user.password = false) :
    (5 ≤ user.failedLoginAttempts + 1 →
      loginUser compare secret now db email password =
        (saveUser db
          { user with failedLoginAttempts := user.failedLoginAttempts + 1,
                      accountLockedUntil := some (now + 30 * 60 * 1000) },
          .error (.unauthorized accountLockedMsg))) ∧
    (user.failedLoginAttempts + 1 < 5 →
      loginUser compare secret now db email password =
        (saveUser db
          { user with failedLoginAttempts := user.failedLoginAttempts + 1 },
          .error (.unauthorized MESSAGES.INVALID_CREDENTIALS))) := by
  constructor
  · intro h5
    simp [loginUser, loginPasswordStep, hfind, hver, hlock, hwrong, h5]
  · intro h5
    simp [loginUser, loginPasswordStep, hfind, hver, hlock, hwrong,
      Nat.not_le_of_lt h5]

/-- C2 witness: concrete account at 3 failures stays below the threshold and
gets the invalid-credentials error with the counter persisted at 4. -/
theorem C2_wrong_password_counts_and_locks_witness :
    findOneByEmail [janeActive] "jane@x.com" = some janeActive ∧
    janeActive.isVerified = true ∧
    janeActive.accountLockedUntil = none ∧
    cmpW "wrongpw" janeActive.password = false ∧
    janeActive.failedLoginAttempts + 1 < 5 ∧
    loginUser cmpW "s" 100000 [janeActive] "jane@x.com" "wrongpw" =
      (saveUser [janeActive]
        { janeActive with
            failedLoginAttempts := janeActive.failedLoginAttempts + 1 },
        .error (.unauthorized MESSAGES.INVALID_CREDENTIALS)) :=
  ⟨by decide, by decide, by decide, by decide, by decide,
    (C2_wrong_password_counts_and_locks cmpW "s" 100000 [janeActive]
      "jane@x.com" "wrongpw" janeActive (by decide) (by decide) (by decide)
      (by decide)).2 (by decide)⟩

/-- C3: when `lockedUntil` is set but has passed, login resets the failure
counter and clears the lock before comparing the password, so a correct
password then succeeds, leaving `failedLoginAttempts` at 0 and the lock
cleared in the persisted record. -/
theorem C3_expired_lock_self_heals_then_succeeds
    (compare : String → String → Bool) (secret : String) (now : Nat)
    (db : List UserRec) (email password : String) (user : UserRec)
    (lockedUntil : Nat)
    (hfind : findOneByEmail db email = some user)
    (hver : user.isVerified = true)
    (hlock : user.accountLockedUntil = some lockedUntil)
    (hpast : lockedUntil ≤ now)
    (hright : compare password user.password = true) :
    loginUser compare secret now db email password =
      (saveUser db
        { user with failedLoginAttempts := 0, accountLockedUntil := none },
        .ok { token := jwtSign (.idClaim user.id) secret now,
              firstName := user.firstName, lastName := user.lastName,
              email := user.email, message := MESSAGES.LOGIN_SUCCESS }) := by
  have hnotfut : ¬ now < lockedUntil := Nat.not_lt_of_le hpast
  simp [loginUser, loginPasswordStep, hfind, hver, hlock, hnotfut, hright,
    saveUser_idem]

/-- C3 witness: concrete account whose lock passed; the correct password
succeeds and the stored record ends with 0 failures and no lock. -/
theorem C3_expired_lock_self_heals_then_succeeds_witness :
    findOneByEmail [janeExpiredLock] "jane@x.com" = some janeExpiredLock ∧
    janeExpiredLock.isVerified = true ∧
    janeExpiredLock.accountLockedUntil = some 1000 ∧
    (1000 : Nat) ≤ 5000 ∧
    cmpW "secret1" janeExpiredLock.password = true ∧
    loginUser cmpW "s" 5000 [janeExpiredLock] "jane@x.com" "secret1" =
      (saveUser [janeExpiredLock]
        { janeExpiredLock with failedLoginAttempts := 0,
                               accountLockedUntil := none },
        .ok { token := jwtSign (.idClaim janeExpiredLock.id) "s" 5000,
              firstName := janeExpiredLock.firstName,
              lastName := janeExpiredLock.lastName,
              email := janeExpiredLock.email,
              message := MESSAGES.LOGIN_SUCCESS }) :=
  ⟨by decide, by decide, by decide, by decide, by decide,
    C3_expired_lock_self_heals_then_succeeds cmpW "s" 5000 [janeExpiredLock]
      "jane@x.com" "secret1" janeExpiredLock 1000 (by decide) (by decide)
      (by decide) (by decide) (by decide)⟩

/-- The field writes `resetPassword` performs on a matched document
(lines 259-262): new password hash, both reset-token fields cleared. -/
def consumeResetToken (hash : String → String) (newPassword : String)
    (u : UserRec) : UserRec :=
  { u with password := hash newPassword, resetPasswordToken := none,
           resetPasswordExpires := none }

/-- After the matched document's reset token is consumed and written back, no
document matches that digest any more, provided the matched document was the
only holder of the digest. -/
theorem findOneByResetToken_after_consume
    (db : List UserRec) (d : String) (now2 : Nat) (user u2 : UserRec)
    (hid : u2.id = user.id) (htok : u2.resetPasswordToken = none)
    (huniq : ∀ v ∈ db, v.resetPasswordToken = some d → v = user) :
    findOneByResetToken (saveUser db u2) d now2 = none := by
  unfold findOneByResetToken saveUser
  rw [List.find?_eq_none]
  intro x hx
  rcases List.mem_map.mp hx with ⟨w, hw, rfl⟩
  by_cases hwid : w.id = u2.id
  · simp [hwid, htok]
  · simp only [beq_iff_eq, hwid, if_false]
    intro hcontra
    have h1 : w.resetPasswordToken = some d := by
      have hand := (Bool.and_eq_true _ _).mp hcontra
      simpa using hand.1
    exact hwid ((huniq w hw h1) ▸ hid.symm)

/-- Looking up the same email after writing back a document with the same id
and email finds the written-back document. -/
theorem findOneByEmail_saveUser (db : List UserRec) (e : String)
    (u u2 : UserRec) (hfind : findOneByEmail db e = some u)
    (hid : u2.id = u.id) (hemail : u2.email = u.email) :
    findOneByEmail (saveUser db u2) e = some u2 := by
  have hue : u.email = e := by
    simpa using List.find?_some hfind
  induction db with
  | nil => simp [findOneByEmail] at hfind
  | cons hd tl ih =>
      by_cases hp : hd.email = e
      · have hdu : hd = u := by
          simpa [findOneByEmail, hp] using hfind
        have : hd.id = u2.id := by rw [hdu, hid]
        simp [findOneByEmail, saveUser, this, hemail, hue, hp]
      · have hfind' : findOneByEmail tl e = some u := by
          simpa [findOneByEmail, hp] using hfind
        by_cases hhid : hd.id = u2.id
        · simp [findOneByEmail, saveUser, hhid, hemail, hue]
        · have := ih hfind'
          simpa [findOneByEmail, saveUser, hhid, hp] using this

/-! Fixtures for the reset-password witnesses. -/

/-- Stand-in for the sha256 digest in concrete evaluations. -/
def shaW : String → String := fun s => s ++ "#sha"

/-- A verified account holding an unexpired reset-token digest while locked
out of login until instant 7000 with 2 failed attempts. -/
def janeReset : UserRec :=
  { id := 1, firstName := "Jane", lastName := some "Doe",
    email := "jane@x.com", password := "h:old", isVerified := true,
    resetPasswordToken := some "tok1#sha", resetPasswordExpires := some 9000,
    failedLoginAttempts := 2, accountLockedUntil := some 7000 }

/-- A second account with no reset token. -/
def bobPlain : UserRec :=
  { id := 2, firstName := "Bob", lastName := none, email := "bob@x.com",
    password := "h:bobpw", isVerified := true }

/-- The two-account database used by the reset-password witnesses. -/
def dbReset : List UserRec := [bobPlain, janeReset]

/-- C4: a reset request whose digest matches an unexpired stored digest
replaces the password hash and clears both reset-token fields; every
non-matching request — wrong secret, expired, or consumed — gets the one
generic Unauthorized invalid-or-expired-token error, and in particular a
second use of a just-consumed secret fails with that same error. -/
theorem C4_reset_password_match_and_generic_failure
    (sha256 hash : String → String) (now now2 : Nat) (db : List UserRec)
    (tok newPassword newPassword2 : String) (user : UserRec)
    (hfind : findOneByResetToken db (sha256 tok) now = some user)
    (huniq : ∀ v ∈ db, v.resetPasswordToken = some (sha256 tok) → v = user) :
    resetPassword sha256 hash now db tok newPassword =
      (saveUser db (consumeResetToken hash newPassword user),
        .ok MESSAGES.PASSWORD_RESET_SUCCESS) ∧
    (∀ (db2 : List UserRec) (tok2 np2 : String) (n2 : Nat),
      findOneByResetToken db2 (sha256 tok2) n2 = none →
      resetPassword sha256 hash n2 db2 tok2 np2 =
        (db2, .error (.unauthorized MESSAGES.INVALID_OR_EXPIRED_TOKEN))) ∧
    resetPassword sha256 hash now2
        (saveUser db (consumeResetToken hash newPassword user)) tok
        newPassword2 =
      (saveUser db (consumeResetToken hash newPassword user),
        .error (.unauthorized MESSAGES.INVALID_OR_EXPIRED_TOKEN)) := by
  refine ⟨by simp [resetPassword, hfind, consumeResetToken], ?_, ?_⟩
  · intro db2 tok2 np2 n2 hnone
    simp [resetPassword, hnone]
  · have hnone := findOneByResetToken_after_consume db (sha256 tok) now2 user
      (consumeResetToken hash newPassword user) rfl rfl huniq
    simp [resetPassword, hnone]

/-- C4 witness: concrete match succeeds and consumes the token; a wrong
secret and a replay of the consumed secret both get the generic error. -/
theorem C4_reset_password_match_and_generic_failure_witness :
    findOneByResetToken dbReset (shaW "tok1") 100 = some janeReset ∧
    resetPassword shaW hashW 100 dbReset "tok1" "npw" =
      (saveUser dbReset (consumeResetToken hashW "npw" janeReset),
        .ok MESSAGES.PASSWORD_RESET_SUCCESS) ∧
    resetPassword shaW hashW 100 dbReset "other" "npw" =
      (dbReset, .error (.unauthorized MESSAGES.INVALID_OR_EXPIRED_TOKEN)) ∧
    resetPassword shaW hashW 200
        (saveUser dbReset (consumeResetToken hashW "npw" janeReset)) "tok1"
        "again" =
      (saveUser dbReset (consumeResetToken hashW "npw" janeReset),
        .error (.unauthorized MESSAGES.INVALID_OR_EXPIRED_TOKEN)) :=
  ⟨by decide,
    (C4_reset_password_match_and_generic_failure shaW hashW 100 200 dbReset
      "tok1" "npw" "again" janeReset (by decide) (by decide)).1,
    (C4_reset_password_match_and_generic_failure shaW hashW 100 200 dbReset
      "tok1" "npw" "again" janeReset (by decide) (by decide)).2.1 dbReset
      "other" "npw" 100 (by decide),
    (C4_reset_password_match_and_generic_failure shaW hashW 100 200 dbReset
      "tok1" "npw" "again" janeReset (by decide) (by decide)).2.2⟩

/-- C10: a successful reset changes only `password` and the two reset-token
fields; `failedLoginAttempts`, `accountLockedUntil` and every other field are
unchanged, so an account locked out of login stays locked (with its counter
intact) after the reset. -/
theorem C10_reset_password_frame_keeps_lock
    (sha256 hash : String → String) (compare : String → String → Bool)
    (secret : String) (now now2 : Nat) (db : List UserRec)
    (tok newPassword password2 : String) (user : UserRec) (t : Nat)
    (hfind : findOneByResetToken db (sha256 tok) now = some user)
    (hmail : findOneByEmail db user.email = some user)
    (hver : user.isVerified = true)
    (hlock : user.accountLockedUntil = some t)
    (hfut : now2 < t) :
    resetPassword sha256 hash now db tok newPassword =
      (saveUser db (consumeResetToken hash newPassword user),
        .ok MESSAGES.PASSWORD_RESET_SUCCESS) ∧
    (consumeResetToken hash newPassword user).failedLoginAttempts =
      user.failedLoginAttempts ∧
    (consumeResetToken hash newPassword user).accountLockedUntil =
      user.accountLockedUntil ∧
    (consumeResetToken hash newPassword user).id = user.id ∧
    (consumeResetToken hash newPassword user).firstName = user.firstName ∧
    (consumeResetToken hash newPassword user).lastName = user.lastName ∧
    (consumeResetToken hash newPassword user).email = user.email ∧
    (consumeResetToken hash newPassword user).isVerified = user.isVerified ∧
    (consumeResetToken hash newPassword user).refreshToken =
      user.refreshToken ∧
    (consumeResetToken hash newPassword user).refreshTokenExpires =
      user.refreshTokenExpires ∧
    (consumeResetToken hash newPassword user).password = hash newPassword ∧
    (consumeResetToken hash newPassword user).resetPasswordToken = none ∧
    (consumeResetToken hash newPassword user).resetPasswordExpires = none ∧
    loginUser compare secret now2
        (saveUser db (consumeResetToken hash newPassword user)) user.email
        password2 =
      (saveUser db (consumeResetToken hash newPassword user),
        .error (.unauthorized
          (accountLockedRemainingMsg (minutesLeft t now2)))) := by
  have hmail2 := findOneByEmail_saveUser db user.email user
    (consumeResetToken hash newPassword user) hmail rfl rfl
  refine ⟨by simp [resetPassword, hfind, consumeResetToken], rfl, rfl, rfl,
    rfl, rfl, rfl, rfl, rfl, rfl, rfl, rfl, rfl, ?_⟩
  simp only [loginUser]
  rw [hmail2]
  simp [consumeResetToken, hver, hlock, hfut]

/-- C10 witness: after resetting the locked concrete account's password, its
counter and lock instant are intact and a login attempt is still refused as
locked. -/
theorem C10_reset_password_frame_keeps_lock_witness :
    findOneByResetToken dbReset (shaW "tok1") 100 = some janeReset ∧
    findOneByEmail dbReset janeReset.email = some janeReset ∧
    janeReset.isVerified = true ∧
    janeReset.accountLockedUntil = some 7000 ∧
    (200 : Nat) < 7000 ∧
    (consumeResetToken hashW "npw" janeReset).failedLoginAttempts = 2 ∧
    (consumeResetToken hashW "npw" janeReset).accountLockedUntil =
      some 7000 ∧
    loginUser cmpW "s" 200
        (saveUser dbReset (consumeResetToken hashW "npw" janeReset))
        janeReset.email "npw" =
      (saveUser dbReset (consumeResetToken hashW "npw" janeReset),
        .error (.unauthorized
          (accountLockedRemainingMsg (minutesLeft 7000 200)))) :=
  ⟨by decide, by decide, by decide, by decide, by decide, by decide,
    by decide,
    (C10_reset_password_frame_keeps_lock shaW hashW cmpW "s" 100 200 dbReset
      "tok1" "npw" "npw" janeReset 7000 (by decide) (by decide) (by decide)
      (by decide) (by decide)).2.2.2.2.2.2.2.2.2.2.2.2.2⟩

/-- An already-verified account, for the verify-email witness. -/
def kimVerified : UserRec :=
  { id := 3, firstName := "Kim", lastName := none, email := "kim@x.com",
    password := "h:kimpw", isVerified := true }

/-- An unverified account, for the verify-email witness. -/
def leeUnverified : UserRec :=
  { id := 4, firstName := "Lee", lastName := none, email := "lee@x.com",
    password := "h:leepw", isVerified := false }

/-- C5: a signature-and-expiry-valid token for an existing unverified account
sets `isVerified` and persists; replaying that token afterwards is rejected
with the validation-class already-verified error, not treated as success; and
the already-verified check runs only after jwt validation and account lookup:
a jwt-invalid token errors with the jwt error whatever the database holds, and
a valid token whose account is missing gets the generic invalid-token
error. -/
theorem C5_verify_email_then_replay_rejected
    (secret e : String) (now now2 : Nat) (db : List UserRec)
    (user : UserRec) (exp : Nat)
    (hfind : findOneByEmail db e = some user)
    (hunver : user.isVerified = false)
    (hexp : now < exp) (hexp2 : now2 < exp) :
    verifyEmail secret now db (.wellFormed ⟨.emailClaim e, secret, exp⟩) =
      (saveUser db { user with isVerified := true },
        .ok MESSAGES.EMAIL_VERIFIED) ∧
    verifyEmail secret now2 (saveUser db { user with isVerified := true })
        (.wellFormed ⟨.emailClaim e, secret, exp⟩) =
      (saveUser db { user with isVerified := true },
        .error (.app (.validation MESSAGES.EMAIL_ALREADY_VERIFIED))) ∧
    (∀ (db2 : List UserRec) (n2 : Nat) (tok : TokenInput) (err : JwtError),
      jwtVerify secret n2 tok = .error err →
      verifyEmail secret n2 db2 tok = (db2, .error (.jwt err))) ∧
    (∀ (db2 : List UserRec) (n2 : Nat) (e2 : String) (exp2 : Nat),
      findOneByEmail db2 e2 = none → n2 < exp2 →
      verifyEmail secret n2 db2 (.wellFormed ⟨.emailClaim e2, secret, exp2⟩)
        = (db2, .error (.app
            (.unauthorized MESSAGES.INVALID_OR_EXPIRED_TOKEN)))) := by
  have hmail2 := findOneByEmail_saveUser db e user
    { user with isVerified := true } hfind rfl rfl
  refine ⟨?_, ?_, ?_, ?_⟩
  · simp [verifyEmail, jwtVerify, Nat.not_le_of_lt hexp,
      findOneByDecodedEmail, hfind, hunver]
  · simp only [verifyEmail, jwtVerify, if_neg (by simp : ¬ secret ≠ secret),
      if_neg (Nat.not_le_of_lt hexp2), findOneByDecodedEmail]
    rw [hmail2]
    simp
  · intro db2 n2 tok err herr
    simp [verifyEmail, herr]
  · intro db2 n2 e2 exp2 hnone hfut
    simp [verifyEmail, jwtVerify, Nat.not_le_of_lt hfut,
      findOneByDecodedEmail, hnone]

/-- C5 witness: a concrete unverified account is verified and persisted; the
replay of the same token gets the already-verified error; the same token
expired gets the jwt error on a database holding the verified account; an
unknown account gets the generic invalid-token error. -/
theorem C5_verify_email_then_replay_rejected_witness :
    findOneByEmail [kimVerified, leeUnverified] "lee@x.com" =
      some leeUnverified ∧
    leeUnverified.isVerified = false ∧
    (50 : Nat) < 4000 ∧ (60 : Nat) < 4000 ∧
    verifyEmail "s" 50 [kimVerified, leeUnverified]
        (.wellFormed ⟨.emailClaim "lee@x.com", "s", 4000⟩) =
      (saveUser [kimVerified, leeUnverified]
          { leeUnverified with isVerified := true },
        .ok MESSAGES.EMAIL_VERIFIED) ∧
    verifyEmail "s" 60
        (saveUser [kimVerified, leeUnverified]
          { leeUnverified with isVerified := true })
        (.wellFormed ⟨.emailClaim "lee@x.com", "s", 4000⟩) =
      (saveUser [kimVerified, leeUnverified]
          { leeUnverified with isVerified := true },
        .error (.app (.validation MESSAGES.EMAIL_ALREADY_VERIFIED))) ∧
    verifyEmail "s" 9000 [kimVerified, leeUnverified]
        (.wellFormed ⟨.emailClaim "kim@x.com", "s", 4000⟩) =
      ([kimVerified, leeUnverified], .error (.jwt .tokenExpired)) ∧
    verifyEmail "s" 60 [kimVerified, leeUnverified]
        (.wellFormed ⟨.emailClaim "ghost@x.com", "s", 4000⟩) =
      ([kimVerified, leeUnverified],
        .error (.app (.unauthorized MESSAGES.INVALID_OR_EXPIRED_TOKEN))) :=
  ⟨by decide, by decide, by decide, by decide,
    (C5_verify_email_then_replay_rejected "s" "lee@x.com" 50 60
      [kimVerified, leeUnverified] leeUnverified 4000 (by decide) (by decide)
      (by decide) (by decide)).1,
    (C5_verify_email_then_replay_rejected "s" "lee@x.com" 50 60
      [kimVerified, leeUnverified] leeUnverified 4000 (by decide) (by decide)
      (by decide) (by decide)).2.1,
    (C5_verify_email_then_replay_rejected "s" "lee@x.com" 50 60
      [kimVerified, leeUnverified] leeUnverified 4000 (by decide) (by decide)
      (by decide) (by decide)).2.2.1 [kimVerified, leeUnverified] 9000
      (.wellFormed ⟨.emailClaim "kim@x.com", "s", 4000⟩) .tokenExpired
      (by decide),
    (C5_verify_email_then_replay_rejected "s" "lee@x.com" 50 60
      [kimVerified, leeUnverified] leeUnverified 4000 (by decide) (by decide)
      (by decide) (by decide)).2.2.2 [kimVerified, leeUnverified] 60
      "ghost@x.com" 4000 (by decide) (by decide)⟩

/-- A zero-count email has no matching document. -/
theorem findOneByEmail_eq_none_of_count_zero (db : List UserRec) (e : String)
    (h : emailCount db e = 0) : findOneByEmail db e = none := by
  unfold emailCount at h
  unfold findOneByEmail
  rw [List.find?_eq_none]
  intro x hx hp
  have hnil : db.filter (fun u => u.email == e) = [] :=
    List.length_eq_zero.mp h
  have : x ∈ db.filter (fun u => u.email == e) :=
    List.mem_filter.mpr ⟨hx, hp⟩
  simp [hnil] at this

/-- A positive-count email has a matching document. -/
theorem findOneByEmail_isSome_of_count_pos (db : List UserRec) (e : String)
    (h : 0 < emailCount db e) : ∃ w, findOneByEmail db e = some w := by
  unfold emailCount at h
  rcases List.exists_mem_of_ne_nil _ (List.length_pos.mp h) with ⟨x, hx⟩
  rcases List.mem_filter.mp hx with ⟨hxdb, hxp⟩
  have : (findOneByEmail db e).isSome :=
    List.find?_isSome.mpr ⟨x, hxdb, hxp⟩
  exact Option.isSome_iff_exists.mp this

/-- C7: registering an email that already has exactly one account fails with
Conflict and leaves the repository unchanged, still with exactly one record
for the email; registering a fresh email appends exactly one new account with
`isVerified = false` and `failedLoginAttempts = 0`. -/
theorem C7_register_conflict_or_single_create
    (hash : String → String) (secret frontendUrl : String)
    (transport : EmailMsg → Except String String) (now : Nat)
    (db : List UserRec) (freshId : Nat) (firstName : String)
    (lastName : Option String) (email password : String) :
    (emailCount db email = 1 →
      registerUser hash secret frontendUrl transport now db freshId firstName
          lastName email password =
        { db := db, sent := none,
          response := .error (.conflict MESSAGES.EMAIL_ALREADY_IN_USE) } ∧
      emailCount (registerUser hash secret frontendUrl transport now db
        freshId firstName lastName email password).db email = 1) ∧
    (emailCount db email = 0 →
      registerUser hash secret frontendUrl transport now db freshId firstName
          lastName email password =
        { db := db ++ [{ id := freshId, firstName := firstName,
                         lastName := lastName, email := email,
                         password := hash password }],
          sent := some (sendEmail transport
            { email := email, subject := "Verify your email",
              message := verificationEmailBody frontendUrl
                (jwtSign (.emailClaim email) secret now) }),
          response := .ok (201, MESSAGES.USER_REGISTERED) } ∧
      ({ id := freshId, firstName := firstName, lastName := lastName,
         email := email, password := hash password } : UserRec).isVerified
        = false ∧
      ({ id := freshId, firstName := firstName, lastName := lastName,
         email := email, password := hash password } :
          UserRec).failedLoginAttempts = 0 ∧
      emailCount (registerUser hash secret frontendUrl transport now db
        freshId firstName lastName email password).db email = 1) := by
  constructor
  · intro hone
    rcases findOneByEmail_isSome_of_count_pos db email (by omega) with ⟨w, hw⟩
    constructor
    · simp [registerUser, hw]
    · simp [registerUser, hw, hone]
  · intro hzero
    have hnone := findOneByEmail_eq_none_of_count_zero db email hzero
    refine ⟨by simp [registerUser, hnone], rfl, rfl, ?_⟩
    unfold emailCount at hzero ⊢
    simp [registerUser, hnone, List.filter_append, hzero]

/-- C7 witness: registering bob's email again conflicts and keeps one
record; registering a fresh email appends the single new unverified
account. -/
theorem C7_register_conflict_or_single_create_witness :
    emailCount [bobPlain] "bob@x.com" = 1 ∧
    registerUser hashW "s" "http://f" (fun _ => .ok "mid1") 100 [bobPlain] 9
        "Ann" none "bob@x.com" "pw1" =
      { db := [bobPlain], sent := none,
        response := .error (.conflict MESSAGES.EMAIL_ALREADY_IN_USE) } ∧
    emailCount [bobPlain] "ann@x.com" = 0 ∧
    registerUser hashW "s" "http://f" (fun _ => .ok "mid1") 100 [bobPlain] 9
        "Ann" none "ann@x.com" "pw1" =
      { db := [bobPlain] ++ [{ id := 9, firstName := "Ann", lastName := none,
                               email := "ann@x.com", password := hashW "pw1" }],
        sent := some (sendEmail (fun _ => .ok "mid1")
          { email := "ann@x.com", subject := "Verify your email",
            message := verificationEmailBody "http://f"
              (jwtSign (.emailClaim "ann@x.com") "s" 100) }),
        response := .ok (201, MESSAGES.USER_REGISTERED) } ∧
    emailCount (registerUser hashW "s" "http://f" (fun _ => .ok "mid1") 100
      [bobPlain] 9 "Ann" none "ann@x.com" "pw1").db "ann@x.com" = 1 :=
  ⟨by decide,
    ((C7_register_conflict_or_single_create hashW "s" "http://f"
      (fun _ => .ok "mid1") 100 [bobPlain] 9 "Ann" none "bob@x.com"
      "pw1").1 (by decide)).1,
    by decide,
    ((C7_register_conflict_or_single_create hashW "s" "http://f"
      (fun _ => .ok "mid1") 100 [bobPlain] 9 "Ann" none "ann@x.com"
      "pw1").2 (by decide)).1,
    ((C7_register_conflict_or_single_create hashW "s" "http://f"
      (fun _ => .ok "mid1") 100 [bobPlain] 9 "Ann" none "ann@x.com"
      "pw1").2 (by decide)).2.2.2⟩

/-- C8: a notification-transport failure neither rolls back the insert nor
changes the 201 response of a fresh-email registration: for every transport
the account is appended and the success response returned, and the database
and response are identical across any two transports. -/
theorem C8_register_success_despite_transport_failure
    (hash : String → String) (secret frontendUrl : String)
    (t1 t2 : EmailMsg → Except String String) (now : Nat)
    (db : List UserRec) (freshId : Nat) (firstName : String)
    (lastName : Option String) (email password : String)
    (hfresh : findOneByEmail db email = none) :
    (registerUser hash secret frontendUrl t1 now db freshId firstName
        lastName email password).db =
      db ++ [{ id := freshId, firstName := firstName, lastName := lastName,
               email := email, password := hash password }] ∧
    (registerUser hash secret frontendUrl t1 now db freshId firstName
        lastName email password).response =
      .ok (201, MESSAGES.USER_REGISTERED) ∧
    (registerUser hash secret frontendUrl t1 now db freshId firstName
        lastName email password).db =
      (registerUser hash secret frontendUrl t2 now db freshId firstName
        lastName email password).db ∧
    (registerUser hash secret frontendUrl t1 now db freshId firstName
        lastName email password).response =
      (registerUser hash secret frontendUrl t2 now db freshId firstName
        lastName email password).response := by
  refine ⟨?_, ?_, ?_, ?_⟩ <;> simp [registerUser, hfresh]

/-- C8 witness: with a transport that always fails, the concrete registration
still persists the account and returns 201, matching a succeeding
transport. -/
theorem C8_register_success_despite_transport_failure_witness :
    findOneByEmail [bobPlain] "ann@x.com" = none ∧
    (registerUser hashW "s" "http://f" (fun _ => .error "SMTP down") 100
      [bobPlain] 9 "Ann" none "ann@x.com" "pw1").db =
      [bobPlain] ++ [{ id := 9, firstName := "Ann", lastName := none,
                       email := "ann@x.com", password := hashW "pw1" }] ∧
    (registerUser hashW "s" "http://f" (fun _ => .error "SMTP down") 100
      [bobPlain] 9 "Ann" none "ann@x.com" "pw1").response =
      .ok (201, MESSAGES.USER_REGISTERED) ∧
    (registerUser hashW "s" "http://f" (fun _ => .error "SMTP down") 100
      [bobPlain] 9 "Ann" none "ann@x.com" "pw1").response =
      (registerUser hashW "s" "http://f" (fun _ => .ok "mid1") 100 [bobPlain]
        9 "Ann" none "ann@x.com" "pw1").response :=
  ⟨by decide,
    (C8_register_success_despite_transport_failure hashW "s" "http://f"
      (fun _ => .error "SMTP down") (fun _ => .ok "mid1") 100 [bobPlain] 9
      "Ann" none "ann@x.com" "pw1" (by decide)).1,
    (C8_register_success_despite_transport_failure hashW "s" "http://f"
      (fun _ => .error "SMTP down") (fun _ => .ok "mid1") 100 [bobPlain] 9
      "Ann" none "ann@x.com" "pw1" (by decide)).2.1,
    (C8_register_success_despite_transport_failure hashW "s" "http://f"
      (fun _ => .error "SMTP down") (fun _ => .ok "mid1") 100 [bobPlain] 9
      "Ann" none "ann@x.com" "pw1" (by decide)).2.2.2⟩

/-- C9: an update changes exactly the provided fields (password hashed before
storage), leaves every other account field unchanged, and an update providing
no fields succeeds as a no-op returning the current record. -/
theorem C9_update_only_provided_fields
    (hash : String → String) (db : List UserRec) (userId : Nat)
    (b : UpdateBody) (user : UserRec)
    (hfind : findById db userId = some user) :
    (b.isEmpty = true →
      updateUser hash db userId b =
        (db, .ok (MESSAGES.USER_UPDATED, some user))) ∧
    (b.isEmpty = false →
      updateUser hash db userId b =
        (saveUser db (applyUpdates hash b user),
          .ok (MESSAGES.USER_UPDATED, some (applyUpdates hash b user)))) ∧
    (applyUpdates hash b user).id = user.id ∧
    (applyUpdates hash b user).isVerified = user.isVerified ∧
    (applyUpdates hash b user).resetPasswordToken =
      user.resetPasswordToken ∧
    (applyUpdates hash b user).resetPasswordExpires =
      user.resetPasswordExpires ∧
    (applyUpdates hash b user).failedLoginAttempts =
      user.failedLoginAttempts ∧
    (applyUpdates hash b user).accountLockedUntil =
      user.accountLockedUntil ∧
    (applyUpdates hash b user).refreshToken = user.refreshToken ∧
    (applyUpdates hash b user).refreshTokenExpires =
      user.refreshTokenExpires ∧
    (b.firstName = none →
      (applyUpdates hash b user).firstName = user.firstName) ∧
    (∀ x, b.firstName = some x → (applyUpdates hash b user).firstName = x) ∧
    (b.lastName = none →
      (applyUpdates hash b user).lastName = user.lastName) ∧
    (∀ x, b.lastName = some x →
      (applyUpdates hash b user).lastName = some x) ∧
    (b.email = none → (applyUpdates hash b user).email = user.email) ∧
    (∀ x, b.email = some x → (applyUpdates hash b user).email = x) ∧
    (b.password = none →
      (applyUpdates hash b user).password = user.password) ∧
    (∀ x, b.password = some x →
      (applyUpdates hash b user).password = hash x) := by
  refine ⟨?_, ?_, rfl, rfl, rfl, rfl, rfl, rfl, rfl, rfl, ?_, ?_, ?_, ?_,
    ?_, ?_, ?_, ?_⟩
  · intro h
    simp [updateUser, h, hfind]
  · intro h
    simp [updateUser, h, hfind]
  · intro h
    simp [applyUpdates, h]
  · intro x h
    simp [applyUpdates, h]
  · intro h
    simp [applyUpdates, h]
  · intro x h
    simp [applyUpdates, h]
  · intro h
    simp [applyUpdates, h]
  · intro x h
    simp [applyUpdates, h]
  · intro h
    simp [applyUpdates, h]
  · intro x h
    simp [applyUpdates, h]

/-- C9 witness: the empty concrete update is a no-op returning the current
record; a firstName-and-password update changes exactly those two stored
fields, hashing the password. -/
theorem C9_update_only_provided_fields_witness :
    findById [janeActive] 1 = some janeActive ∧
    (UpdateBody.isEmpty {} : Bool) = true ∧
    updateUser hashW [janeActive] 1 {} =
      ([janeActive], .ok (MESSAGES.USER_UPDATED, some janeActive)) ∧
    UpdateBody.isEmpty
      { firstName := some "New", password := some "npw2" } = false ∧
    updateUser hashW [janeActive] 1
        { firstName := some "New", password := some "npw2" } =
      (saveUser [janeActive]
        (applyUpdates hashW
          { firstName := some "New", password := some "npw2" } janeActive),
        .ok (MESSAGES.USER_UPDATED,
          some (applyUpdates hashW
            { firstName := some "New", password := some "npw2" }
            janeActive))) ∧
    (applyUpdates hashW { firstName := some "New", password := some "npw2" }
      janeActive).firstName = "New" ∧
    (applyUpdates hashW { firstName := some "New", password := some "npw2" }
      janeActive).password = hashW "npw2" ∧
    (applyUpdates hashW { firstName := some "New", password := some "npw2" }
      janeActive).email = janeActive.email ∧
    (applyUpdates hashW { firstName := some "New", password := some "npw2" }
      janeActive).failedLoginAttempts = janeActive.failedLoginAttempts :=
  ⟨by decide, by decide,
    (C9_update_only_provided_fields hashW [janeActive] 1 {} janeActive
      (by decide)).1 (by decide),
    by decide,
    (C9_update_only_provided_fields hashW [janeActive] 1
      { firstName := some "New", password := some "npw2" } janeActive
      (by decide)).2.1 (by decide),
    (C9_update_only_provided_fields hashW [janeActive] 1
      { firstName := some "New", password := some "npw2" } janeActive
      (by decide)).2.2.2.2.2.2.2.2.2.2.2.1 "New" (by decide),
    (C9_update_only_provided_fields hashW [janeActive] 1
      { firstName := some "New", password := some "npw2" } janeActive
      (by decide)).2.2.2.2.2.2.2.2.2.2.2.2.2.2.2.2.2 "npw2" (by decide),
    (C9_update_only_provided_fields hashW [janeActive] 1
      { firstName := some "New", password := some "npw2" } janeActive
      (by decide)).2.2.2.2.2.2.2.2.2.2.2.2.2.2.1 (by decide),
    (C9_update_only_provided_fields hashW [janeActive] 1
      { firstName := some "New", password := some "npw2" } janeActive
      (by decide)).2.2.2.2.2.2.1⟩

/-- C6: contrary to the claim (and to the repository's own middleware tests),
the `protect` middleware distinguishes token failures: an expired bearer
token is answered 401 "Token expired" and an invalid one 401 "Invalid token",
neither of which is the claimed uniform 401 "Not authorized, token failed";
only the missing-token branch matches the claim with 401
"Not authorized, no token". -/
theorem C6_protect_distinguishes_expired_from_invalid :
    protect "s" 1000 (.bearer (.wellFormed ⟨.idClaim 1, "s", 500⟩)) =
      .rejected 401 "Token expired" "TOKEN_EXPIRED" (some 500) ∧
    protect "s" 1000 (.bearer (.malformed "garbage")) =
      .rejected 401 "Invalid token" "INVALID_TOKEN" none ∧
    protect "s" 1000 (.bearer (.wellFormed ⟨.idClaim 1, "wrongkey", 9999⟩)) =
      .rejected 401 "Invalid token" "INVALID_TOKEN" none ∧
    protect "s" 1000 .missing =
      .rejected 401 "Not authorized, no token" "NO_TOKEN" none ∧
    "Token expired" ≠ "Not authorized, token failed" ∧
    "Invalid token" ≠ "Not authorized, token failed" := by
  refine ⟨rfl, rfl, rfl, rfl, by decide, by decide⟩

end JobTrackr
